import Mathlib

/-!
# Arizona microphone supply (arizona-micsupp.c) and SPI bus glue (arizona-spi.c)

A shallow embedding of the two drivers:

* `drivers/regulator/arizona-micsupp.c`: the selector-to-voltage codecs, the
  regulator operations, the charge-pump synchronizer work item, probe and remove;
* `drivers/mfd/arizona-spi.c`: device identification and register-map selection
  at bus attach.

C `unsigned int` values are natural numbers reduced modulo `2 ^ 32` where the
source does arithmetic on them; C `int` results are integers, errors being the
negated errno values.
-/

namespace Arizona

/-! ## Machine integers and errno values -/

/-- The modulus of C `unsigned int` arithmetic. -/
def UINT_MOD : Nat := 2 ^ 32

/-- Conversion of an `unsigned int` value to the `int` a function returns
(two's complement, as the kernel's compilers do it). -/
def to_int (x : Nat) : Int :=
  if x % UINT_MOD < 2 ^ 31 then ((x % UINT_MOD : Nat) : Int)
  else ((x % UINT_MOD : Nat) : Int) - (UINT_MOD : Int)

/-- The errno `EINVAL` of `errno-base.h`. -/
def EINVAL : Int := 22

/-- The errno `ENOMEM` of `errno-base.h`. -/
def ENOMEM : Int := 12

/-! ## Voltage codec (arizona-micsupp.c, lines 38-88) -/

def ARIZONA_MICSUPP_MAX_SELECTOR : Nat := 0x1f

def ARIZONA_MICSUPP_RANGE1_MAX_SELECTOR : Nat := 0x14

def ARIZONA_MICSUPP_RANGE2_MAX_SELECTOR : Nat := 0x27

/-- The function `arizona_micsupp_sel_to_voltage`: the standard mapping. The
selector is an `unsigned int`, the product and the sum are taken modulo
`2 ^ 32` and the result is returned as an `int`. -/
def arizona_micsupp_sel_to_voltage (selector : Nat) : Int :=
  if selector > ARIZONA_MICSUPP_MAX_SELECTOR then
    -EINVAL
  else if selector = ARIZONA_MICSUPP_MAX_SELECTOR then
    3300000
  else
    to_int ((selector * 50000 % UINT_MOD + 1700000) % UINT_MOD)

/-- The function `arizona_micsupp_ext_sel_to_voltage`: the extended mapping.
In the second segment the selector is first rebased by an unsigned
subtraction of `ARIZONA_MICSUPP_RANGE1_MAX_SELECTOR`. -/
def arizona_micsupp_ext_sel_to_voltage (selector : Nat) : Int :=
  if selector > ARIZONA_MICSUPP_RANGE2_MAX_SELECTOR then
    -EINVAL
  else if selector < ARIZONA_MICSUPP_RANGE1_MAX_SELECTOR then
    to_int ((selector * 25000 % UINT_MOD + 900000) % UINT_MOD)
  else
    let selector := (selector + UINT_MOD - ARIZONA_MICSUPP_RANGE1_MAX_SELECTOR) % UINT_MOD
    to_int ((selector * 100000 % UINT_MOD + 1400000) % UINT_MOD)

/-- Modelled from the spec: the DeviceVariant enumeration, which is
`enum arizona_type` of `linux/mfd/arizona/core.h`, a header that is not among
the sources. The enumerators the two drivers name are listed; `other n`
stands for every further value a variant variable can hold (another
enumerator, or a number that is no enumerator at all). -/
inductive arizona_type where
  | WM5102
  | WM5110
  | WM8280
  | other (n : Nat)
  deriving DecidableEq, Repr

open arizona_type

/-! ## Build configuration and header constants -/

/-- The preprocessor symbols the two files test. -/
structure kconfig where
  CONFIG_AUDIO_CODEC_FLORIDA : Bool
  CONFIG_AUDIO_CODEC_WM8998_SWITCH : Bool
  CONFIG_MFD_WM5102 : Bool
  CONFIG_MFD_FLORIDA : Bool
  CONFIG_OF : Bool
  deriving DecidableEq, Repr

/-- The register addresses and field masks of
`linux/mfd/arizona/registers.h` that arizona-micsupp.c names. The header is
not among the sources, so the values are parameters of the embedding. -/
structure arizona_registers where
  ARIZONA_MIC_CHARGE_PUMP_1 : Nat
  ARIZONA_CPMIC_ENA : Nat
  ARIZONA_CPMIC_BYPASS : Nat
  ARIZONA_LDO2_CONTROL_1 : Nat
  ARIZONA_LDO2_VSEL_MASK : Nat
  deriving DecidableEq, Repr

/-! ## Regulator descriptors and init data (arizona-micsupp.c, lines 182-242) -/

/-- The fields of `struct regulator_desc` the driver fills in (the operations
table, the regulator type and the owner are the same in both descriptors). -/
structure regulator_desc where
  name : String
  supply_name : String
  n_voltages : Nat
  vsel_reg : Nat
  vsel_mask : Nat
  enable_reg : Nat
  enable_mask : Nat
  bypass_reg : Nat
  bypass_mask : Nat
  enable_time : Nat
  deriving DecidableEq, Repr

/-- The descriptor `arizona_micsupp` (standard range). -/
def arizona_micsupp (regs : arizona_registers) : regulator_desc :=
  { name := "MICVDD"
    supply_name := "CPVDD"
    n_voltages := ARIZONA_MICSUPP_MAX_SELECTOR + 1
    vsel_reg := regs.ARIZONA_LDO2_CONTROL_1
    vsel_mask := regs.ARIZONA_LDO2_VSEL_MASK
    enable_reg := regs.ARIZONA_MIC_CHARGE_PUMP_1
    enable_mask := regs.ARIZONA_CPMIC_ENA
    bypass_reg := regs.ARIZONA_MIC_CHARGE_PUMP_1
    bypass_mask := regs.ARIZONA_CPMIC_BYPASS
    enable_time := 6000 }

/-- The descriptor `arizona_micsupp_ext` (extended range). -/
def arizona_micsupp_ext (regs : arizona_registers) : regulator_desc :=
  { name := "MICVDD"
    supply_name := "CPVDD"
    n_voltages := ARIZONA_MICSUPP_RANGE2_MAX_SELECTOR + 1
    vsel_reg := regs.ARIZONA_LDO2_CONTROL_1
    vsel_mask := regs.ARIZONA_LDO2_VSEL_MASK
    enable_reg := regs.ARIZONA_MIC_CHARGE_PUMP_1
    enable_mask := regs.ARIZONA_CPMIC_ENA
    bypass_reg := regs.ARIZONA_MIC_CHARGE_PUMP_1
    bypass_mask := regs.ARIZONA_CPMIC_BYPASS
    enable_time := 3000 }

/-- The permitted-operation flags of `linux/regulator/machine.h` that the
default constraints combine. -/
inductive regulator_change where
  | REGULATOR_CHANGE_STATUS
  | REGULATOR_CHANGE_VOLTAGE
  | REGULATOR_CHANGE_BYPASS
  deriving DecidableEq, Repr

open regulator_change

/-- The fields of `struct regulation_constraints` the driver sets. -/
structure regulation_constraints where
  valid_ops_mask : List regulator_change
  min_uV : Int
  max_uV : Int
  deriving DecidableEq, Repr

/-- A `struct regulator_consumer_supply`. -/
structure regulator_consumer_supply where
  supply : String
  dev_name : String
  deriving DecidableEq, Repr

/-- A `struct regulator_init_data`; `consumer_supplies` is the pointer to the
supply table, `none` for a null pointer. -/
structure regulator_init_data where
  constraints : regulation_constraints
  num_consumer_supplies : Nat
  consumer_supplies : Option regulator_consumer_supply
  deriving DecidableEq, Repr

/-- The built-in constraints `arizona_micsupp_default`. -/
def arizona_micsupp_default : regulator_init_data :=
  { constraints :=
      { valid_ops_mask :=
          [REGULATOR_CHANGE_STATUS, REGULATOR_CHANGE_VOLTAGE, REGULATOR_CHANGE_BYPASS]
        min_uV := 1700000
        max_uV := 3300000 }
    num_consumer_supplies := 1
    consumer_supplies := none }

/-- The built-in constraints `arizona_micsupp_ext_default`. -/
def arizona_micsupp_ext_default : regulator_init_data :=
  { constraints :=
      { valid_ops_mask :=
          [REGULATOR_CHANGE_STATUS, REGULATOR_CHANGE_VOLTAGE, REGULATOR_CHANGE_BYPASS]
        min_uV := 900000
        max_uV := 3300000 }
    num_consumer_supplies := 1
    consumer_supplies := none }

/-! ## Devices, hardware description nodes and the per-device state -/

/-- A child of a hardware description node, reduced to its name and to what
`of_get_regulator_init_data` parses from it (`none` when the parse yields a
null pointer). -/
structure of_child where
  name : String
  init_data : Option regulator_init_data
  deriving DecidableEq, Repr

/-- Modelled from the spec: a hardware description node. `of_type` is the
variant identifier that `arizona_of_get_type` (arizona-core.c, not among the
sources) parses from the node; `children` are its child nodes in order. -/
structure device_node where
  of_type : arizona_type
  children : List of_child
  deriving DecidableEq, Repr

/-- The platform data `struct arizona_pdata`, reduced to its `micvdd` member. -/
structure arizona_pdata where
  micvdd : Option regulator_init_data
  deriving DecidableEq, Repr

/-- A `struct device`: its name, its hardware description node and the
platform data pointer `dev_get_platdata` returns. -/
structure device where
  name : String
  of_node : Option device_node
  platform_data : Option arizona_pdata
  deriving DecidableEq, Repr

/-- The register-map catalog entries arizona-spi.c selects from (the tables
themselves live in wm5102-tables.c and florida-tables.c). -/
inductive regmap_config where
  | wm5102_spi_regmap
  | florida_spi_regmap
  deriving DecidableEq, Repr

open regmap_config

/-- A register map: the configuration it was initialised with and the
outcome `(ret, value)` of `regmap_read` at each address. -/
structure regmap where
  config : regmap_config
  read : Nat → Int × Nat

/-- A pin of the audio-routing graph, as `struct snd_soc_dapm_widget` keeps it. -/
structure dapm_pin where
  connected : Bool
  force : Bool
  deriving DecidableEq, Repr

/-- The state `PIN_FORCED_ON` of the spec. -/
def PIN_FORCED_ON : dapm_pin := { connected := true, force := true }

/-- The state `PIN_DISABLED` of the spec. -/
def PIN_DISABLED : dapm_pin := { connected := false, force := false }

/-- The audio-routing graph handle: the state of the pin named "MICSUPP" and
the number of synchronization passes run so far. -/
structure snd_soc_dapm_context where
  MICSUPP : dapm_pin
  sync_passes : Nat
  deriving DecidableEq, Repr

/-- Modelled from the spec: `force_pin_enabled(name)` of the audio-routing
graph collaborator (sound/soc/soc-dapm.c, not among the sources). -/
def snd_soc_dapm_force_enable_pin (dapm : snd_soc_dapm_context) : snd_soc_dapm_context :=
  { dapm with MICSUPP := PIN_FORCED_ON }

/-- Modelled from the spec: `disable_pin(name)` of the audio-routing graph
collaborator (sound/soc/soc-dapm.c, not among the sources). -/
def snd_soc_dapm_disable_pin (dapm : snd_soc_dapm_context) : snd_soc_dapm_context :=
  { dapm with MICSUPP := PIN_DISABLED }

/-- Modelled from the spec: `synchronize()` of the audio-routing graph
collaborator (sound/soc/soc-dapm.c, not among the sources); one more pass. -/
def snd_soc_dapm_sync (dapm : snd_soc_dapm_context) : snd_soc_dapm_context :=
  { dapm with sync_passes := dapm.sync_passes + 1 }

/-- The per-device state `struct arizona`. -/
structure arizona where
  regmap : regmap
  type : arizona_type
  dev : device
  irq : Int
  pdata : arizona_pdata
  dapm : Option snd_soc_dapm_context

/-- The calls a driver function makes to its collaborators, in order. -/
inductive call where
  | regmap_read (reg : Nat)
  | regmap_update_bits (reg mask val : Nat)
  | dev_err (msg : String)
  | mutex_lock
  | mutex_unlock
  | snd_soc_dapm_force_enable_pin (pin : String)
  | snd_soc_dapm_disable_pin (pin : String)
  | snd_soc_dapm_sync
  | regulator_enable_regmap
  | regulator_disable_regmap
  | regulator_set_bypass_regmap (ena : Bool)
  | udelay (usecs : Nat)
  | schedule_work
  | devm_kzalloc
  | devm_regmap_init_spi (config : regmap_config)
  | arizona_dev_init
  | regulator_register
  | regulator_unregister
  | of_get_child_by_name (name : String)
  | of_get_regulator_init_data
  | of_node_put
  deriving DecidableEq, Repr

/-! ## Charge-pump synchronizer (arizona-micsupp.c, lines 90-125) -/

/-- The work function `arizona_micsupp_check_cp`, run on the per-device
state its `micsupp->arizona` points to. It returns nothing; the embedding
gives the per-device state afterwards (the graph handle is the only part it
can change) and the collaborator calls it made. `reg` is the `unsigned int`
that `regmap_read` stored. -/
def arizona_micsupp_check_cp (cfg : kconfig) (regs : arizona_registers) (a : arizona) :
    arizona × List call :=
  let dapm := a.dapm
  let rd := a.regmap.read regs.ARIZONA_MIC_CHARGE_PUMP_1
  let ret := rd.1
  let reg := rd.2
  if ret ≠ 0 then
    (a, [call.regmap_read regs.ARIZONA_MIC_CHARGE_PUMP_1,
         call.dev_err "Failed to read CP state: %d\n"])
  else
    match dapm with
    | none => (a, [call.regmap_read regs.ARIZONA_MIC_CHARGE_PUMP_1])
    | some d =>
      let locked := cfg.CONFIG_AUDIO_CODEC_FLORIDA || cfg.CONFIG_AUDIO_CODEC_WM8998_SWITCH
      let lock := if locked then [] else [call.mutex_lock]
      let unlock := if locked then [] else [call.mutex_unlock]
      if reg &&& (regs.ARIZONA_CPMIC_ENA ||| regs.ARIZONA_CPMIC_BYPASS) = regs.ARIZONA_CPMIC_ENA then
        ({ a with dapm := some (snd_soc_dapm_sync (snd_soc_dapm_force_enable_pin d)) },
          [call.regmap_read regs.ARIZONA_MIC_CHARGE_PUMP_1] ++ lock
            ++ [call.snd_soc_dapm_force_enable_pin "MICSUPP"] ++ unlock
            ++ [call.snd_soc_dapm_sync])
      else
        ({ a with dapm := some (snd_soc_dapm_sync (snd_soc_dapm_disable_pin d)) },
          [call.regmap_read regs.ARIZONA_MIC_CHARGE_PUMP_1] ++ lock
            ++ [call.snd_soc_dapm_disable_pin "MICSUPP"] ++ unlock
            ++ [call.snd_soc_dapm_sync])

/-! ## Regulator operations (arizona-micsupp.c, lines 127-165) -/

/-- A `struct work_struct`: whether the work item is queued and has not yet
started to run. -/
structure work_struct where
  pending : Bool
  deriving DecidableEq, Repr

/-- The kernel's `schedule_work`: queues the item unless it is already
pending, and returns whether it queued it. -/
def schedule_work (work : work_struct) : Bool × work_struct :=
  (!work.pending, { work with pending := true })

/-- The instance `struct arizona_micsupp`. `regulator` is the registered
regulator with the hardware behind it, a state of the regulator framework of
type `ρ`. (The C tag shares its name with the standard descriptor.) -/
structure struct_arizona_micsupp (ρ : Type) where
  regulator : ρ
  arizona : arizona
  supply : regulator_consumer_supply
  init_data : regulator_init_data
  check_cp_work : work_struct

/-- The regulator framework's primitives the driver delegates to
(drivers/regulator/core.c, not among the sources), each a transition of
the framework state that also gives the `int` it returns. -/
structure regulator_framework (ρ : Type) where
  regulator_enable_regmap : ρ → Int × ρ
  regulator_disable_regmap : ρ → Int × ρ
  regulator_set_bypass_regmap : ρ → Bool → Int × ρ
  regulator_unregister : ρ → ρ

/-- What a driver entry point leaves behind: the value returned, the
instance afterwards and the collaborator calls made. -/
structure op_result (ρ : Type) where
  ret : Int
  micsupp : struct_arizona_micsupp ρ
  calls : List call

/-- The operation `arizona_micsupp_enable`. -/
def arizona_micsupp_enable {ρ : Type} (fw : regulator_framework ρ)
    (micsupp : struct_arizona_micsupp ρ) : op_result ρ :=
  let r := fw.regulator_enable_regmap micsupp.regulator
  let ret := r.1
  let micsupp := { micsupp with regulator := r.2 }
  if ret = 0 then
    { ret := ret
      micsupp := { micsupp with check_cp_work := (schedule_work micsupp.check_cp_work).2 }
      calls := [call.regulator_enable_regmap, call.schedule_work] }
  else
    { ret := ret, micsupp := micsupp, calls := [call.regulator_enable_regmap] }

/-- The operation `arizona_micsupp_disable`. -/
def arizona_micsupp_disable {ρ : Type} (fw : regulator_framework ρ)
    (micsupp : struct_arizona_micsupp ρ) : op_result ρ :=
  let r := fw.regulator_disable_regmap micsupp.regulator
  let ret := r.1
  let micsupp := { micsupp with regulator := r.2 }
  if ret = 0 then
    { ret := ret
      micsupp := { micsupp with check_cp_work := (schedule_work micsupp.check_cp_work).2 }
      calls := [call.regulator_disable_regmap, call.schedule_work] }
  else
    { ret := ret, micsupp := micsupp, calls := [call.regulator_disable_regmap] }

/-- The operation `arizona_micsupp_set_bypass`; the busy wait of 1000 us is
compiled in under the two codec options. -/
def arizona_micsupp_set_bypass {ρ : Type} (cfg : kconfig) (fw : regulator_framework ρ)
    (micsupp : struct_arizona_micsupp ρ) (ena : Bool) : op_result ρ :=
  let r := fw.regulator_set_bypass_regmap micsupp.regulator ena
  let ret := r.1
  let micsupp := { micsupp with regulator := r.2 }
  let delay :=
    if cfg.CONFIG_AUDIO_CODEC_FLORIDA || cfg.CONFIG_AUDIO_CODEC_WM8998_SWITCH then
      [call.udelay 1000]
    else []
  if ret = 0 then
    { ret := ret
      micsupp := { micsupp with check_cp_work := (schedule_work micsupp.check_cp_work).2 }
      calls := [call.regulator_set_bypass_regmap ena] ++ delay ++ [call.schedule_work] }
  else
    { ret := ret, micsupp := micsupp, calls := [call.regulator_set_bypass_regmap ena] ++ delay }

/-- The operation `arizona_micsupp_remove`: it unregisters the regulator and
returns 0. -/
def arizona_micsupp_remove {ρ : Type} (fw : regulator_framework ρ)
    (micsupp : struct_arizona_micsupp ρ) : op_result ρ :=
  { ret := 0
    micsupp := { micsupp with regulator := fw.regulator_unregister micsupp.regulator }
    calls := [call.regulator_unregister] }

/-- A client request to the regulator control surface. -/
inductive micsupp_op where
  | enable
  | disable
  | set_bypass (ena : Bool)
  deriving DecidableEq, Repr

/-- One client request, dispatched through `arizona_micsupp_ops`. -/
def run_op {ρ : Type} (cfg : kconfig) (fw : regulator_framework ρ)
    (micsupp : struct_arizona_micsupp ρ) : micsupp_op → op_result ρ
  | micsupp_op.enable => arizona_micsupp_enable fw micsupp
  | micsupp_op.disable => arizona_micsupp_disable fw micsupp
  | micsupp_op.set_bypass ena => arizona_micsupp_set_bypass cfg fw micsupp ena

/-- The kernel's worker taking the instance's work item off the queue: a
pending item stops being pending and its function `arizona_micsupp_check_cp`
runs; nothing happens when the item is not pending. -/
def process_one_work {ρ : Type} (cfg : kconfig) (regs : arizona_registers)
    (micsupp : struct_arizona_micsupp ρ) : struct_arizona_micsupp ρ :=
  if micsupp.check_cp_work.pending then
    { micsupp with
      check_cp_work := { micsupp.check_cp_work with pending := false }
      arizona := (arizona_micsupp_check_cp cfg regs micsupp.arizona).1 }
  else micsupp

/-- What can happen to an attached instance before detach: a client request,
or the worker running the work item. -/
inductive micsupp_event where
  | request (op : micsupp_op)
  | work_runs
  deriving DecidableEq, Repr

/-- The instance after a sequence of events. -/
def run_events {ρ : Type} (cfg : kconfig) (regs : arizona_registers)
    (fw : regulator_framework ρ) :
    struct_arizona_micsupp ρ → List micsupp_event → struct_arizona_micsupp ρ
  | micsupp, [] => micsupp
  | micsupp, micsupp_event.request op :: evs =>
    run_events cfg regs fw (run_op cfg fw micsupp op).micsupp evs
  | micsupp, micsupp_event.work_runs :: evs =>
    run_events cfg regs fw (process_one_work cfg regs micsupp) evs

/-! ## Probe of the regulator (arizona-micsupp.c, lines 244-338) -/

/-- The fields of `struct regulator_config` the probe fills in besides the
driver data and the register map, which are the instance and
`arizona->regmap`. A zeroed config has all of them `none`. -/
structure regulator_config where
  dev : Option device
  init_data : Option regulator_init_data
  of_node : Option of_child
  deriving DecidableEq, Repr

/-- The kernel's `of_get_child_by_name`: the first child of that name, a null
pointer when the node is null or has no such child. -/
def of_get_child_by_name (node : Option device_node) (name : String) : Option of_child :=
  match node with
  | none => none
  | some n => n.children.find? (fun c => c.name == name)

/-- The function `arizona_micsupp_of_get_pdata`; `supply` is the instance's
`micsupp->supply` that the node's init data is made to point to. It gives
the value returned, the per-device state and the config afterwards, and the
lookups it made in the hardware description. -/
def arizona_micsupp_of_get_pdata (a : arizona) (supply : regulator_consumer_supply)
    (config : regulator_config) : Int × arizona × regulator_config × List call :=
  match of_get_child_by_name a.dev.of_node "micvdd" with
  | some np =>
    let config := { config with of_node := some np }
    match np.init_data with
    | some init_data =>
      let init_data :=
        { init_data with consumer_supplies := some supply, num_consumer_supplies := 1 }
      (0, { a with pdata := { a.pdata with micvdd := some init_data } }, config,
        [call.of_get_child_by_name "micvdd", call.of_get_regulator_init_data])
    | none =>
      (0, a, config, [call.of_get_child_by_name "micvdd", call.of_get_regulator_init_data])
  | none => (0, a, config, [call.of_get_child_by_name "micvdd"])

/-- The outcomes of the probe's collaborators: whether `devm_kzalloc`
returns memory, and what `regulator_register` returns for a descriptor and
a config (`error e` for an `ERR_PTR` of `e`). -/
structure micsupp_probe_env (ρ : Type) where
  devm_kzalloc_ok : Bool
  regulator_register : regulator_desc → regulator_config → Except Int ρ

/-- What `arizona_micsupp_probe` leaves behind: the value returned, the
per-device state afterwards, the descriptor and config handed to
`regulator_register` when the probe got that far, the instance stored as
driver data on success, and the collaborator calls made. -/
structure micsupp_probe_result (ρ : Type) where
  ret : Int
  arizona : arizona
  registered : Option (regulator_desc × regulator_config)
  micsupp : Option (struct_arizona_micsupp ρ)
  calls : List call

/-- The `switch (arizona->type)` of `arizona_micsupp_probe` (lines 291-301):
the descriptor and the default init data of the variant. -/
def arizona_micsupp_probe_select (regs : arizona_registers) (type : arizona_type) :
    regulator_desc × regulator_init_data :=
  match type with
  | WM8280 => (arizona_micsupp_ext regs, arizona_micsupp_ext_default)
  | WM5110 => (arizona_micsupp_ext regs, arizona_micsupp_ext_default)
  | _ => (arizona_micsupp regs, arizona_micsupp_default)

/-- The function `arizona_micsupp_probe`. -/
def arizona_micsupp_probe {ρ : Type} (cfg : kconfig) (regs : arizona_registers)
    (env : micsupp_probe_env ρ) (a : arizona) : micsupp_probe_result ρ :=
  if !env.devm_kzalloc_ok then
    { ret := -ENOMEM, arizona := a, registered := none, micsupp := none
      calls := [call.devm_kzalloc, call.dev_err "Unable to allocate private data\n"] }
  else
    let check_cp_work : work_struct := { pending := false }
    let sel := arizona_micsupp_probe_select regs a.type
    let desc := sel.1
    let supply : regulator_consumer_supply := { supply := "MICVDD", dev_name := a.dev.name }
    let init_data := { sel.2 with consumer_supplies := some supply }
    let config : regulator_config := { dev := some a.dev, init_data := none, of_node := none }
    let r :=
      if cfg.CONFIG_OF && a.dev.platform_data.isNone then
        arizona_micsupp_of_get_pdata a supply config
      else (0, a, config, [])
    let lookups := r.2.2.2
    if r.1 < 0 then
      { ret := r.1, arizona := r.2.1, registered := none, micsupp := none
        calls := [call.devm_kzalloc] ++ lookups }
    else
      let a := r.2.1
      let config := r.2.2.1
      let config :=
        match a.pdata.micvdd with
        | some micvdd => { config with init_data := some micvdd }
        | none => { config with init_data := some init_data }
      let update :=
        call.regmap_update_bits regs.ARIZONA_MIC_CHARGE_PUMP_1 regs.ARIZONA_CPMIC_BYPASS 0
      match env.regulator_register desc config with
      | Except.error e =>
        { ret := e, arizona := a, registered := some (desc, config), micsupp := none
          calls := [call.devm_kzalloc] ++ lookups ++ [update, call.regulator_register,
                    call.dev_err "Failed to register mic supply: %d\n"] }
      | Except.ok rdev =>
        { ret := 0, arizona := a, registered := some (desc, config)
          micsupp := some
            { regulator := rdev, arizona := a, supply := supply, init_data := init_data
              check_cp_work := check_cp_work }
          calls := [call.devm_kzalloc] ++ lookups
                    ++ [update, call.regulator_register, call.of_node_put] }

/-- The operation `arizona_micsupp_list_voltage`, on the instance the
regulator's driver data points to. -/
def arizona_micsupp_list_voltage {ρ : Type} (micsupp : struct_arizona_micsupp ρ)
    (selector : Nat) : Int :=
  match micsupp.arizona.type with
  | WM8280 => arizona_micsupp_ext_sel_to_voltage selector
  | WM5110 => arizona_micsupp_ext_sel_to_voltage selector
  | _ => arizona_micsupp_sel_to_voltage selector

/-! ## Bus attach (arizona-spi.c) -/

/-- A `struct spi_device_id`. -/
structure spi_device_id where
  name : String
  driver_data : arizona_type
  deriving DecidableEq, Repr

/-- The table `arizona_spi_ids`, without its empty terminator. -/
def arizona_spi_ids : List spi_device_id :=
  [ { name := "wm5102", driver_data := WM5102 },
    { name := "wm8280", driver_data := WM8280 },
    { name := "wm8281", driver_data := WM8280 },
    { name := "wm5110", driver_data := WM5110 } ]

/-- A `struct spi_device`: its device, the bus-level identifier string and
the interrupt line. -/
structure spi_device where
  dev : device
  modalias : String
  irq : Int
  deriving DecidableEq, Repr

/-- The SPI core's `spi_get_device_id` for this driver: the first entry of
`arizona_spi_ids` whose name is the device's identifier string, a null
pointer when there is none. -/
def spi_get_device_id (spi : spi_device) : Option spi_device_id :=
  arizona_spi_ids.find? (fun e => e.name == spi.modalias)

/-- Modelled from the spec: `arizona_of_get_type` (arizona-core.c, not among
the sources), which parses a variant identifier from the device's hardware
description node. -/
def arizona_of_get_type (node : device_node) : arizona_type :=
  node.of_type

/-- The outcomes of the attach's collaborators: whether `devm_kzalloc`
returns memory, what `devm_regmap_init_spi` returns for a configuration
(`error e` for an `ERR_PTR` of `e`) and what `arizona_dev_init` returns. -/
structure spi_probe_env where
  devm_kzalloc_ok : Bool
  devm_regmap_init_spi : regmap_config → Except Int regmap
  arizona_dev_init : arizona → Int

/-- What `arizona_spi_probe` leaves behind: the value returned, the
per-device state as it was handed to `arizona_dev_init` (when the attach got
that far) and the collaborator calls made. -/
structure spi_probe_result where
  ret : Int
  arizona : Option arizona
  calls : List call

/-- Lines 39-42 of `arizona_spi_probe`: the variant resolved from the node
when there is one, else from the identifier table entry. The result is
`none` when the null `id` is dereferenced. -/
def arizona_spi_probe_type (spi : spi_device) (id : Option spi_device_id) :
    Option arizona_type :=
  match spi.dev.of_node with
  | some node => some (arizona_of_get_type node)
  | none => id.map (fun i => i.driver_data)

/-- The `switch (type)` of `arizona_spi_probe` (lines 43-59): the register
map of the variant, `none` for the `default` label. A case is there only
when its option is configured. -/
def arizona_spi_probe_regmap (cfg : kconfig) (type : arizona_type) : Option regmap_config :=
  match type with
  | WM5102 => if cfg.CONFIG_MFD_WM5102 then some wm5102_spi_regmap else none
  | WM8280 => if cfg.CONFIG_MFD_FLORIDA then some florida_spi_regmap else none
  | WM5110 => if cfg.CONFIG_MFD_FLORIDA then some florida_spi_regmap else none
  | _ => none

/-- The function `arizona_spi_probe`, as the file reads with
`CONFIG_AUDIO_CODEC_FLORIDA` defined (without it the braces of the function
do not balance); `regmap_32bit_config` stays null, so no second register map
is initialised. The result is `none` when the function dereferences a null
`id`. -/
def arizona_spi_probe (cfg : kconfig) (env : spi_probe_env) (spi : spi_device) :
    Option spi_probe_result :=
  let id := spi_get_device_id spi
  let regmap_32bit_config : Option regmap_config := none
  match arizona_spi_probe_type spi id with
  | none => none
  | some type =>
    match arizona_spi_probe_regmap cfg type with
    | none =>
      match id with
      | none => none
      | some _ =>
        some { ret := -EINVAL, arizona := none
               calls := [call.dev_err "Unknown device type %ld\n"] }
    | some regmap_config =>
      if !env.devm_kzalloc_ok then
        some { ret := -ENOMEM, arizona := none, calls := [call.devm_kzalloc] }
      else
        match env.devm_regmap_init_spi regmap_config with
        | Except.error e =>
          some { ret := e, arizona := none
                 calls := [call.devm_kzalloc, call.devm_regmap_init_spi regmap_config,
                           call.dev_err "Failed to allocate register map: %d\n"] }
        | Except.ok map =>
          let dsp : Option Int :=
            match regmap_32bit_config with
            | some config32 =>
              match env.devm_regmap_init_spi config32 with
              | Except.error e => some e
              | Except.ok _ => none
            | none => none
          match dsp with
          | some e =>
            some { ret := e, arizona := none
                   calls := [call.devm_kzalloc, call.devm_regmap_init_spi regmap_config,
                             call.dev_err "Failed to allocate dsp register map: %d\n"] }
          | none =>
            match id with
            | none => none
            | some id =>
              let a : arizona :=
                { regmap := map, type := id.driver_data, dev := spi.dev, irq := spi.irq
                  pdata := { micvdd := none }, dapm := none }
              some { ret := env.arizona_dev_init a, arizona := some a
                     calls := [call.devm_kzalloc, call.devm_regmap_init_spi regmap_config,
                               call.arizona_dev_init] }

/-! ## Sample inputs -/

/-- The values the mainline header gives the register constants. -/
def sample_regs : arizona_registers :=
  { ARIZONA_MIC_CHARGE_PUMP_1 := 0x200
    ARIZONA_CPMIC_ENA := 0x0001
    ARIZONA_CPMIC_BYPASS := 0x0002
    ARIZONA_LDO2_CONTROL_1 := 0x213
    ARIZONA_LDO2_VSEL_MASK := 0x07E0 }

/-- A build for the florida codecs only, with device tree support. -/
def sample_cfg : kconfig :=
  { CONFIG_AUDIO_CODEC_FLORIDA := true
    CONFIG_AUDIO_CODEC_WM8998_SWITCH := false
    CONFIG_MFD_WM5102 := false
    CONFIG_MFD_FLORIDA := true
    CONFIG_OF := true }

/-- A device without hardware description node and without platform data. -/
def sample_device : device :=
  { name := "spi0.0", of_node := none, platform_data := none }

/-- A per-device state of variant `type` on `dev`, whose register map
answers every read with `(ret, value)`. -/
def sample_arizona (type : arizona_type) (dev : device) (ret : Int) (value : Nat)
    (dapm : Option snd_soc_dapm_context) : arizona :=
  { regmap := { config := florida_spi_regmap, read := fun _ => (ret, value) }
    type := type
    dev := dev
    irq := 0
    pdata := { micvdd := none }
    dapm := dapm }

/-- A regulator framework over the value of the charge-pump register, whose
primitives always succeed: they set or clear the enable bit 0x1 and the
bypass bit 0x2. -/
def sample_fw : regulator_framework Nat :=
  { regulator_enable_regmap := fun r => (0, r ||| 0x1)
    regulator_disable_regmap := fun r => (0, r &&& 0xFFFE)
    regulator_set_bypass_regmap := fun r ena => (0, if ena then r ||| 0x2 else r &&& 0xFFFD)
    regulator_unregister := fun r => r }

/-- A regulator framework whose primitives fail with `-EIO` and change
nothing. -/
def sample_fw_eio : regulator_framework Nat :=
  { regulator_enable_regmap := fun r => (-5, r)
    regulator_disable_regmap := fun r => (-5, r)
    regulator_set_bypass_regmap := fun r _ => (-5, r)
    regulator_unregister := fun r => r }

/-- A freshly probed instance on a WM8280 whose charge-pump register reads
`reg`: nothing is pending. -/
def sample_micsupp (reg : Nat) : struct_arizona_micsupp Nat :=
  { regulator := reg
    arizona := sample_arizona WM8280 sample_device 0 reg none
    supply := { supply := "MICVDD", dev_name := "spi0.0" }
    init_data :=
      { arizona_micsupp_ext_default with
        consumer_supplies := some { supply := "MICVDD", dev_name := "spi0.0" } }
    check_cp_work := { pending := false } }

/-- Init data as a hardware description node "micvdd" may give it: a fixed
1.8 V rail whose status may change. -/
def sample_node_init_data : regulator_init_data :=
  { constraints :=
      { valid_ops_mask := [REGULATOR_CHANGE_STATUS]
        min_uV := 1800000
        max_uV := 1800000 }
    num_consumer_supplies := 0
    consumer_supplies := none }

/-- A device whose hardware description node has a child "micvdd" that
yields `sample_node_init_data`, with the platform data pointer
`platform_data`. -/
def sample_of_device (platform_data : Option arizona_pdata) : device :=
  { name := "spi0.0"
    of_node := some
      { of_type := WM8280
        children := [{ name := "micvdd", init_data := some sample_node_init_data }] }
    platform_data := platform_data }

/-- Collaborators of the regulator probe that all succeed. -/
def sample_probe_env : micsupp_probe_env Unit :=
  { devm_kzalloc_ok := true
    regulator_register := fun _ _ => Except.ok () }

/-- The instance a probe with `sample_probe_env` stores for a device of
variant `type` that has neither node nor platform data. -/
def sample_probed (type : arizona_type) : struct_arizona_micsupp Unit :=
  { regulator := ()
    arizona := sample_arizona type sample_device 0 0 none
    supply := { supply := "MICVDD", dev_name := "spi0.0" }
    init_data :=
      { (arizona_micsupp_probe_select sample_regs type).2 with
        consumer_supplies := some { supply := "MICVDD", dev_name := "spi0.0" } }
    check_cp_work := { pending := false } }

/-- Collaborators of the bus attach that all succeed; the register map
answers every read with `(0, 0)`. -/
def sample_spi_env : spi_probe_env :=
  { devm_kzalloc_ok := true
    devm_regmap_init_spi := fun config => Except.ok { config := config, read := fun _ => (0, 0) }
    arizona_dev_init := fun _ => 0 }

/-- An SPI device with the identifier string `modalias` and the hardware
description node `of_node`, without platform data. -/
def sample_spi (of_node : Option device_node) (modalias : String) : spi_device :=
  { dev := { name := "spi0.0", of_node := of_node, platform_data := none }
    modalias := modalias
    irq := 42 }

/-! ## Theorems: voltage codec -/

/-- The linear part of the standard mapping: no wrap-around happens. -/
theorem sel_to_voltage_linear (s : Nat) (h : s ≤ 0x1E) :
    arizona_micsupp_sel_to_voltage s = (s : Int) * 50000 + 1700000 := by
  have h1 : ¬ s > 0x1f := by omega
  have h2 : ¬ s = 0x1f := by omega
  have h3 : (s * 50000 % 2 ^ 32 + 1700000) % 2 ^ 32 = s * 50000 + 1700000 := by omega
  have h4 : (s * 50000 + 1700000) % 2 ^ 32 = s * 50000 + 1700000 := by omega
  have h5 : s * 50000 + 1700000 < 2 ^ 31 := by omega
  simp only [arizona_micsupp_sel_to_voltage, ARIZONA_MICSUPP_MAX_SELECTOR, to_int, UINT_MOD]
  rw [if_neg h1, if_neg h2, h3, h4, if_pos h5]
  push_cast
  ring

/-- The override entry of the standard mapping. -/
theorem sel_to_voltage_top : arizona_micsupp_sel_to_voltage 0x1F = 3300000 := by
  simp [arizona_micsupp_sel_to_voltage, ARIZONA_MICSUPP_MAX_SELECTOR]

/-- The first segment of the extended mapping: no wrap-around happens. -/
theorem ext_sel_to_voltage_low (s : Nat) (h : s < 0x14) :
    arizona_micsupp_ext_sel_to_voltage s = (s : Int) * 25000 + 900000 := by
  have h1 : ¬ s > 0x27 := by omega
  have h3 : (s * 25000 % 2 ^ 32 + 900000) % 2 ^ 32 = s * 25000 + 900000 := by omega
  have h4 : (s * 25000 + 900000) % 2 ^ 32 = s * 25000 + 900000 := by omega
  have h5 : s * 25000 + 900000 < 2 ^ 31 := by omega
  simp only [arizona_micsupp_ext_sel_to_voltage, ARIZONA_MICSUPP_RANGE2_MAX_SELECTOR,
    ARIZONA_MICSUPP_RANGE1_MAX_SELECTOR, to_int, UINT_MOD]
  rw [if_neg h1, if_pos h, h3, h4, if_pos h5]
  push_cast
  ring

/-- The second segment of the extended mapping: the rebased selector is
`s - 0x14` and no wrap-around happens. -/
theorem ext_sel_to_voltage_high (s : Nat) (hlo : 0x14 ≤ s) (hhi : s ≤ 0x27) :
    arizona_micsupp_ext_sel_to_voltage s = ((s : Int) - 0x14) * 100000 + 1400000 := by
  have h1 : ¬ s > 0x27 := by omega
  have h2 : ¬ s < 0x14 := by omega
  have h0 : (s + 2 ^ 32 - 0x14) % 2 ^ 32 = s - 0x14 := by omega
  have h3 : ((s - 0x14) * 100000 % 2 ^ 32 + 1400000) % 2 ^ 32
      = (s - 0x14) * 100000 + 1400000 := by omega
  have h4 : ((s - 0x14) * 100000 + 1400000) % 2 ^ 32 = (s - 0x14) * 100000 + 1400000 := by
    omega
  have h5 : (s - 0x14) * 100000 + 1400000 < 2 ^ 31 := by omega
  simp only [arizona_micsupp_ext_sel_to_voltage, ARIZONA_MICSUPP_RANGE2_MAX_SELECTOR,
    ARIZONA_MICSUPP_RANGE1_MAX_SELECTOR, to_int, UINT_MOD]
  rw [if_neg h1, if_neg h2, h0, h3, h4, if_pos h5]
  push_cast [Nat.cast_sub hlo]
  ring

/-- The standard table is positive on `[0, 0x1F]`. -/
theorem sel_to_voltage_pos (s : Nat) (hs : s ≤ 0x1F) :
    0 < arizona_micsupp_sel_to_voltage s := by
  rcases Nat.lt_or_ge s 0x1F with h | h
  · rw [sel_to_voltage_linear s (by omega)]
    omega
  · have hs' : s = 0x1F := by omega
    subst hs'
    rw [sel_to_voltage_top]
    decide

/-- The standard table is strictly increasing on `[0, 0x1F]`. -/
theorem sel_to_voltage_increasing (a b : Nat) (hab : a < b) (hb : b ≤ 0x1F) :
    arizona_micsupp_sel_to_voltage a < arizona_micsupp_sel_to_voltage b := by
  rw [sel_to_voltage_linear a (by omega)]
  rcases Nat.lt_or_ge b 0x1F with h | h
  · rw [sel_to_voltage_linear b (by omega)]
    omega
  · have hb' : b = 0x1F := by omega
    subst hb'
    rw [sel_to_voltage_top]
    omega

/-- The extended table is positive on `[0, 0x27]`. -/
theorem ext_sel_to_voltage_pos (s : Nat) (hs : s ≤ 0x27) :
    0 < arizona_micsupp_ext_sel_to_voltage s := by
  rcases Nat.lt_or_ge s 0x14 with h | h
  · rw [ext_sel_to_voltage_low s h]
    omega
  · rw [ext_sel_to_voltage_high s h hs]
    omega

/-- The extended table is strictly increasing on `[0, 0x27]`, also across
the boundary of its two segments. -/
theorem ext_sel_to_voltage_increasing (a b : Nat) (hab : a < b) (hb : b ≤ 0x27) :
    arizona_micsupp_ext_sel_to_voltage a < arizona_micsupp_ext_sel_to_voltage b := by
  rcases Nat.lt_or_ge b 0x14 with h | h
  · rw [ext_sel_to_voltage_low a (by omega), ext_sel_to_voltage_low b h]
    omega
  · rw [ext_sel_to_voltage_high b h hb]
    rcases Nat.lt_or_ge a 0x14 with h' | h'
    · rw [ext_sel_to_voltage_low a h']
      omega
    · rw [ext_sel_to_voltage_high a h' (by omega)]
      omega

/-- C1: the standard mapping `arizona_micsupp_sel_to_voltage` returns
`-EINVAL` for every selector above 0x1F, exactly 3,300,000 uV at 0x1F, and
`s * 50,000 + 1,700,000` uV for every selector `s` from 0 to 0x1E. -/
theorem arizona_micsupp_sel_to_voltage_spec (s : Nat) :
    (s > 0x1F → arizona_micsupp_sel_to_voltage s = -EINVAL) ∧
    (s = 0x1F → arizona_micsupp_sel_to_voltage s = 3300000) ∧
    (s ≤ 0x1E → arizona_micsupp_sel_to_voltage s = (s : Int) * 50000 + 1700000) := by
  refine ⟨?_, ?_, sel_to_voltage_linear s⟩
  · intro h
    simp only [arizona_micsupp_sel_to_voltage, ARIZONA_MICSUPP_MAX_SELECTOR]
    rw [if_pos h]
  · intro h
    subst h
    exact sel_to_voltage_top

/-- The standard mapping at the selectors 0x20, 0x1F and 0x1E. -/
theorem arizona_micsupp_sel_to_voltage_spec_witness :
    arizona_micsupp_sel_to_voltage 0x20 = -EINVAL ∧
    arizona_micsupp_sel_to_voltage 0x1F = 3300000 ∧
    arizona_micsupp_sel_to_voltage 0x1E = 3200000 :=
  ⟨(arizona_micsupp_sel_to_voltage_spec 0x20).1 (by decide),
   (arizona_micsupp_sel_to_voltage_spec 0x1F).2.1 rfl,
   by simpa using (arizona_micsupp_sel_to_voltage_spec 0x1E).2.2 (by decide)⟩

/-- C2: the extended mapping `arizona_micsupp_ext_sel_to_voltage` returns
`-EINVAL` for every selector above 0x27, `s * 25,000 + 900,000` uV for every
selector `s` below 0x14, and `(s - 0x14) * 100,000 + 1,400,000` uV for every
selector `s` from 0x14 to 0x27. -/
theorem arizona_micsupp_ext_sel_to_voltage_spec (s : Nat) :
    (s > 0x27 → arizona_micsupp_ext_sel_to_voltage s = -EINVAL) ∧
    (s < 0x14 → arizona_micsupp_ext_sel_to_voltage s = (s : Int) * 25000 + 900000) ∧
    (0x14 ≤ s → s ≤ 0x27 →
      arizona_micsupp_ext_sel_to_voltage s = ((s : Int) - 0x14) * 100000 + 1400000) := by
  refine ⟨?_, ext_sel_to_voltage_low s, ext_sel_to_voltage_high s⟩
  intro h
  simp only [arizona_micsupp_ext_sel_to_voltage, ARIZONA_MICSUPP_RANGE2_MAX_SELECTOR]
  rw [if_pos h]

/-- The extended mapping at the selectors 0x28, 0x13, 0x14 and 0x27. -/
theorem arizona_micsupp_ext_sel_to_voltage_spec_witness :
    arizona_micsupp_ext_sel_to_voltage 0x28 = -EINVAL ∧
    arizona_micsupp_ext_sel_to_voltage 0x13 = 1375000 ∧
    arizona_micsupp_ext_sel_to_voltage 0x14 = 1400000 ∧
    arizona_micsupp_ext_sel_to_voltage 0x27 = 3300000 :=
  ⟨(arizona_micsupp_ext_sel_to_voltage_spec 0x28).1 (by decide),
   by simpa using (arizona_micsupp_ext_sel_to_voltage_spec 0x13).2.1 (by decide),
   by simpa using (arizona_micsupp_ext_sel_to_voltage_spec 0x14).2.2 (by decide) (by decide),
   by simpa using (arizona_micsupp_ext_sel_to_voltage_spec 0x27).2.2 (by decide) (by decide)⟩

/-- The node lookup `arizona_micsupp_of_get_pdata` always returns 0 and
leaves the variant of the per-device state alone. -/
theorem of_get_pdata_ret_type (a : arizona) (supply : regulator_consumer_supply)
    (config : regulator_config) :
    (arizona_micsupp_of_get_pdata a supply config).1 = 0 ∧
      (arizona_micsupp_of_get_pdata a supply config).2.1.type = a.type := by
  unfold arizona_micsupp_of_get_pdata
  cases of_get_child_by_name a.dev.of_node "micvdd" with
  | none => exact ⟨rfl, rfl⟩
  | some np =>
    cases h : np.init_data with
    | none => simp [h]
    | some d => simp [h]

/-- The descriptor and the instance of a probe that stored its driver data:
the descriptor is the one the variant selects and the instance points to a
per-device state of the same variant. -/
theorem probe_desc_and_type {ρ : Type} (cfg : kconfig) (regs : arizona_registers)
    (env : micsupp_probe_env ρ) (a : arizona) (m : struct_arizona_micsupp ρ)
    (hm : (arizona_micsupp_probe cfg regs env a).micsupp = some m) :
    m.arizona.type = a.type ∧
      ∃ config, (arizona_micsupp_probe cfg regs env a).registered
        = some ((arizona_micsupp_probe_select regs a.type).1, config) := by
  have hof := of_get_pdata_ret_type a { supply := "MICVDD", dev_name := a.dev.name }
    { dev := some a.dev, init_data := none, of_node := none }
  revert hm
  unfold arizona_micsupp_probe
  simp only []
  split_ifs with h1 h2 h3 h4
  all_goals try (intro hm; simp at hm; done)
  all_goals
    cases hreg : env.regulator_register _ _ with
    | error e => intro hm; simp at hm
    | ok rdev =>
      intro hm
      simp only [Option.some.injEq] at hm
      subst hm
      first
        | exact ⟨hof.2, _, rfl⟩
        | exact ⟨rfl, _, rfl⟩

/-- C10: the voltage table each variant lists is defined on its whole
selector range and strictly increasing. For the instance `m` and the
descriptor `desc` of a completed probe, whatever the variant of the device:
`arizona_micsupp_list_voltage` gives a positive voltage (no error) at every
selector below `desc.n_voltages`, and a strictly smaller voltage at `x` than
at `y` whenever `x < y < desc.n_voltages`; `desc.n_voltages` is 0x28 for
WM5110 and WM8280 and 0x20 for every other variant. -/
theorem arizona_micsupp_list_voltage_increasing {ρ : Type} (cfg : kconfig)
    (regs : arizona_registers) (env : micsupp_probe_env ρ) (a : arizona)
    (m : struct_arizona_micsupp ρ) (desc : regulator_desc) (config : regulator_config)
    (hm : (arizona_micsupp_probe cfg regs env a).micsupp = some m)
    (hd : (arizona_micsupp_probe cfg regs env a).registered = some (desc, config)) :
    (∀ s, s < desc.n_voltages → 0 < arizona_micsupp_list_voltage m s) ∧
    (∀ x y, x < y → y < desc.n_voltages →
      arizona_micsupp_list_voltage m x < arizona_micsupp_list_voltage m y) ∧
    desc.n_voltages = (if a.type = WM5110 ∨ a.type = WM8280 then 0x28 else 0x20) := by
  obtain ⟨ht, config', hreg⟩ := probe_desc_and_type cfg regs env a m hm
  rw [hreg] at hd
  simp only [Option.some.injEq, Prod.mk.injEq] at hd
  obtain ⟨hdesc, -⟩ := hd
  subst hdesc
  unfold arizona_micsupp_list_voltage
  rw [ht]
  cases a.type with
  | WM5102 =>
    have hn : (arizona_micsupp_probe_select regs (WM5102)).1.n_voltages = 0x1F + 1 := rfl
    rw [hn]
    refine ⟨?_, ?_, by simp⟩
    · intro s hs
      exact sel_to_voltage_pos s (by omega)
    · intro x y hxy hy
      exact sel_to_voltage_increasing x y hxy (by omega)
  | WM5110 =>
    have hn : (arizona_micsupp_probe_select regs (WM5110)).1.n_voltages = 0x27 + 1 := rfl
    rw [hn]
    refine ⟨?_, ?_, by simp⟩
    · intro s hs
      exact ext_sel_to_voltage_pos s (by omega)
    · intro x y hxy hy
      exact ext_sel_to_voltage_increasing x y hxy (by omega)
  | WM8280 =>
    have hn : (arizona_micsupp_probe_select regs (WM8280)).1.n_voltages = 0x27 + 1 := rfl
    rw [hn]
    refine ⟨?_, ?_, by simp⟩
    · intro s hs
      exact ext_sel_to_voltage_pos s (by omega)
    · intro x y hxy hy
      exact ext_sel_to_voltage_increasing x y hxy (by omega)
  | other n =>
    have hn : (arizona_micsupp_probe_select regs (other n)).1.n_voltages = 0x1F + 1 := rfl
    rw [hn]
    refine ⟨?_, ?_, by simp⟩
    · intro s hs
      exact sel_to_voltage_pos s (by omega)
    · intro x y hxy hy
      exact sel_to_voltage_increasing x y hxy (by omega)

/-- The table of a probed WM8280 across the boundary of the two segments of
the extended mapping, and the table of a probed WM5102 at the override
entry of the standard mapping. -/
theorem arizona_micsupp_list_voltage_increasing_witness :
    (arizona_micsupp_list_voltage (sample_probed WM8280) 0x13
        < arizona_micsupp_list_voltage (sample_probed WM8280) 0x14 ∧
      0 < arizona_micsupp_list_voltage (sample_probed WM8280) 0x27) ∧
    arizona_micsupp_list_voltage (sample_probed WM5102) 0x1E
      < arizona_micsupp_list_voltage (sample_probed WM5102) 0x1F :=
  ⟨⟨(arizona_micsupp_list_voltage_increasing sample_cfg sample_regs sample_probe_env
        (sample_arizona WM8280 sample_device 0 0 none) (sample_probed WM8280)
        (arizona_micsupp_ext sample_regs) _ rfl rfl).2.1 0x13 0x14 (by decide) (by decide),
     (arizona_micsupp_list_voltage_increasing sample_cfg sample_regs sample_probe_env
        (sample_arizona WM8280 sample_device 0 0 none) (sample_probed WM8280)
        (arizona_micsupp_ext sample_regs) _ rfl rfl).1 0x27 (by decide)⟩,
   (arizona_micsupp_list_voltage_increasing sample_cfg sample_regs sample_probe_env
      (sample_arizona WM5102 sample_device 0 0 none) (sample_probed WM5102)
      (arizona_micsupp sample_regs) _ rfl rfl).2.1 0x1E 0x1F (by decide) (by decide)⟩

/-! ## Theorems: charge-pump synchronizer -/

/-- With disjoint field masks, the test `(reg & (ENA | BYPASS)) == ENA` of
the synchronizer holds exactly when the enabled field of `reg` is set and
its bypass field is clear. -/
theorem cp_test_iff (reg ena byp : Nat) (h : ena &&& byp = 0) :
    reg &&& (ena ||| byp) = ena ↔ (reg &&& ena = ena ∧ reg &&& byp = 0) := by
  have hb : ∀ i, (ena.testBit i && byp.testBit i) = false := by
    intro i
    rw [← Nat.testBit_and, h]
    simp
  constructor
  · intro H
    have Hb : ∀ i, (reg.testBit i && (ena.testBit i || byp.testBit i)) = ena.testBit i := by
      intro i
      rw [← Nat.testBit_or, ← Nat.testBit_and, H]
    constructor
    · apply Nat.eq_of_testBit_eq
      intro i
      rw [Nat.testBit_and]
      have h1 := hb i
      have h2 := Hb i
      revert h1 h2
      cases reg.testBit i <;> cases ena.testBit i <;> cases byp.testBit i <;> simp
    · apply Nat.eq_of_testBit_eq
      intro i
      rw [Nat.testBit_and]
      have h1 := hb i
      have h2 := Hb i
      revert h1 h2
      cases reg.testBit i <;> cases ena.testBit i <;> cases byp.testBit i <;> simp
  · rintro ⟨H1, H2⟩
    have Hb1 : ∀ i, (reg.testBit i && ena.testBit i) = ena.testBit i := by
      intro i
      rw [← Nat.testBit_and, H1]
    have Hb2 : ∀ i, (reg.testBit i && byp.testBit i) = false := by
      intro i
      rw [← Nat.testBit_and, H2]
      simp
    apply Nat.eq_of_testBit_eq
    intro i
    rw [Nat.testBit_and, Nat.testBit_or]
    have h1 := Hb1 i
    have h2 := Hb2 i
    revert h1 h2
    cases reg.testBit i <;> cases ena.testBit i <;> cases byp.testBit i <;> simp

/-- The graph handle after a run of the synchronizer that read the status
register and found the handle: the pin is decided by the test on the two
fields and one pass has been added. -/
theorem check_cp_dapm (cfg : kconfig) (regs : arizona_registers) (a : arizona)
    (d : snd_soc_dapm_context)
    (hread : (a.regmap.read regs.ARIZONA_MIC_CHARGE_PUMP_1).1 = 0)
    (hdapm : a.dapm = some d) :
    (arizona_micsupp_check_cp cfg regs a).1.dapm =
      some { MICSUPP :=
               if (a.regmap.read regs.ARIZONA_MIC_CHARGE_PUMP_1).2
                    &&& (regs.ARIZONA_CPMIC_ENA ||| regs.ARIZONA_CPMIC_BYPASS)
                    = regs.ARIZONA_CPMIC_ENA
               then PIN_FORCED_ON else PIN_DISABLED
             sync_passes := d.sync_passes + 1 } := by
  unfold arizona_micsupp_check_cp
  simp only [hread, hdapm, ne_eq, not_true_eq_false, if_false]
  split_ifs <;> rfl

/-- The calls of a run of the synchronizer that read the status register
and found the handle: exactly one synchronization pass, made last. -/
theorem check_cp_calls (cfg : kconfig) (regs : arizona_registers) (a : arizona)
    (d : snd_soc_dapm_context)
    (hread : (a.regmap.read regs.ARIZONA_MIC_CHARGE_PUMP_1).1 = 0)
    (hdapm : a.dapm = some d) :
    (arizona_micsupp_check_cp cfg regs a).2.count call.snd_soc_dapm_sync = 1 ∧
      (arizona_micsupp_check_cp cfg regs a).2.getLast? = some call.snd_soc_dapm_sync := by
  unfold arizona_micsupp_check_cp
  simp only [hread, hdapm, ne_eq, not_true_eq_false, if_false]
  split_ifs <;> simp [List.count_cons]

/-- The pin call of a run of the synchronizer that read the status register
and found the handle: the pin "MICSUPP" is force-enabled when the test on
the two fields holds and disabled when it does not, and no other pin call
is made. -/
theorem check_cp_pin_call (cfg : kconfig) (regs : arizona_registers) (a : arizona)
    (d : snd_soc_dapm_context)
    (hread : (a.regmap.read regs.ARIZONA_MIC_CHARGE_PUMP_1).1 = 0)
    (hdapm : a.dapm = some d) :
    ((a.regmap.read regs.ARIZONA_MIC_CHARGE_PUMP_1).2
          &&& (regs.ARIZONA_CPMIC_ENA ||| regs.ARIZONA_CPMIC_BYPASS)
        = regs.ARIZONA_CPMIC_ENA →
      call.snd_soc_dapm_force_enable_pin "MICSUPP" ∈ (arizona_micsupp_check_cp cfg regs a).2 ∧
      ∀ pin, call.snd_soc_dapm_disable_pin pin ∉ (arizona_micsupp_check_cp cfg regs a).2) ∧
    (¬ (a.regmap.read regs.ARIZONA_MIC_CHARGE_PUMP_1).2
          &&& (regs.ARIZONA_CPMIC_ENA ||| regs.ARIZONA_CPMIC_BYPASS)
        = regs.ARIZONA_CPMIC_ENA →
      call.snd_soc_dapm_disable_pin "MICSUPP" ∈ (arizona_micsupp_check_cp cfg regs a).2 ∧
      ∀ pin, call.snd_soc_dapm_force_enable_pin pin ∉ (arizona_micsupp_check_cp cfg regs a).2) := by
  unfold arizona_micsupp_check_cp
  simp only [hread, hdapm, ne_eq, not_true_eq_false, if_false]
  constructor
  · intro h
    rw [if_pos h]
    split_ifs <;> simp
  · intro h
    rw [if_neg h]
    split_ifs <;> simp

/-- C3: the decision of the charge-pump synchronizer. Whenever the read of
the status register succeeds and the audio-routing graph handle is present,
then for every register value and every prior pin state the run leaves the
MICSUPP pin forced on exactly when the enabled field (`ARIZONA_CPMIC_ENA`)
is set and the bypass field (`ARIZONA_CPMIC_BYPASS`) is clear, leaves it
disabled otherwise, and then makes one synchronization pass, its last call.
The pin call it makes is the force-enable of "MICSUPP" in the first case
and the disable of "MICSUPP" in the other, and it makes no other pin call.
Two runs whose register values agree on the two fields leave the same pin
state, whatever the other bits, the prior pin states and the build options. -/
theorem arizona_micsupp_check_cp_decision (cfg : kconfig) (regs : arizona_registers)
    (a : arizona) (d : snd_soc_dapm_context)
    (hmask : regs.ARIZONA_CPMIC_ENA &&& regs.ARIZONA_CPMIC_BYPASS = 0)
    (hread : (a.regmap.read regs.ARIZONA_MIC_CHARGE_PUMP_1).1 = 0)
    (hdapm : a.dapm = some d) :
    (arizona_micsupp_check_cp cfg regs a).1.dapm =
      some { MICSUPP :=
               if (a.regmap.read regs.ARIZONA_MIC_CHARGE_PUMP_1).2 &&& regs.ARIZONA_CPMIC_ENA
                      = regs.ARIZONA_CPMIC_ENA ∧
                    (a.regmap.read regs.ARIZONA_MIC_CHARGE_PUMP_1).2
                      &&& regs.ARIZONA_CPMIC_BYPASS = 0
               then PIN_FORCED_ON else PIN_DISABLED
             sync_passes := d.sync_passes + 1 } ∧
    (arizona_micsupp_check_cp cfg regs a).2.count call.snd_soc_dapm_sync = 1 ∧
    (arizona_micsupp_check_cp cfg regs a).2.getLast? = some call.snd_soc_dapm_sync ∧
    (((a.regmap.read regs.ARIZONA_MIC_CHARGE_PUMP_1).2 &&& regs.ARIZONA_CPMIC_ENA
          = regs.ARIZONA_CPMIC_ENA ∧
        (a.regmap.read regs.ARIZONA_MIC_CHARGE_PUMP_1).2 &&& regs.ARIZONA_CPMIC_BYPASS = 0) →
      call.snd_soc_dapm_force_enable_pin "MICSUPP" ∈ (arizona_micsupp_check_cp cfg regs a).2 ∧
      ∀ pin, call.snd_soc_dapm_disable_pin pin ∉ (arizona_micsupp_check_cp cfg regs a).2) ∧
    (¬ ((a.regmap.read regs.ARIZONA_MIC_CHARGE_PUMP_1).2 &&& regs.ARIZONA_CPMIC_ENA
          = regs.ARIZONA_CPMIC_ENA ∧
        (a.regmap.read regs.ARIZONA_MIC_CHARGE_PUMP_1).2 &&& regs.ARIZONA_CPMIC_BYPASS = 0) →
      call.snd_soc_dapm_disable_pin "MICSUPP" ∈ (arizona_micsupp_check_cp cfg regs a).2 ∧
      ∀ pin, call.snd_soc_dapm_force_enable_pin pin ∉ (arizona_micsupp_check_cp cfg regs a).2) ∧
    ∀ (cfg' : kconfig) (a' : arizona) (d' : snd_soc_dapm_context),
      (a'.regmap.read regs.ARIZONA_MIC_CHARGE_PUMP_1).1 = 0 → a'.dapm = some d' →
      (a'.regmap.read regs.ARIZONA_MIC_CHARGE_PUMP_1).2
          &&& (regs.ARIZONA_CPMIC_ENA ||| regs.ARIZONA_CPMIC_BYPASS)
        = (a.regmap.read regs.ARIZONA_MIC_CHARGE_PUMP_1).2
          &&& (regs.ARIZONA_CPMIC_ENA ||| regs.ARIZONA_CPMIC_BYPASS) →
      (arizona_micsupp_check_cp cfg' regs a').1.dapm.map (fun g => g.MICSUPP)
        = (arizona_micsupp_check_cp cfg regs a).1.dapm.map (fun g => g.MICSUPP) := by
  refine ⟨?_, (check_cp_calls cfg regs a d hread hdapm).1,
    (check_cp_calls cfg regs a d hread hdapm).2, ?_, ?_, ?_⟩
  · rw [check_cp_dapm cfg regs a d hread hdapm]
    simp only [cp_test_iff _ _ _ hmask]
  · intro h
    exact (check_cp_pin_call cfg regs a d hread hdapm).1 ((cp_test_iff _ _ _ hmask).2 h)
  · intro h
    exact (check_cp_pin_call cfg regs a d hread hdapm).2
      (fun h' => h ((cp_test_iff _ _ _ hmask).1 h'))
  · intro cfg' a' d' hread' hdapm' hbits
    rw [check_cp_dapm cfg regs a d hread hdapm, check_cp_dapm cfg' regs a' d' hread' hdapm',
      hbits]
    rfl

/-- The synchronizer at the register values 0x5 (enabled, not bypassed, a
further bit set) and 0x3 (enabled and bypassed). -/
theorem arizona_micsupp_check_cp_decision_witness :
    (arizona_micsupp_check_cp sample_cfg sample_regs
        (sample_arizona WM8280 sample_device 0 0x5
          (some { MICSUPP := PIN_DISABLED, sync_passes := 0 }))).1.dapm
      = some { MICSUPP := PIN_FORCED_ON, sync_passes := 1 } ∧
    (arizona_micsupp_check_cp sample_cfg sample_regs
        (sample_arizona WM8280 sample_device 0 0x3
          (some { MICSUPP := PIN_FORCED_ON, sync_passes := 7 }))).1.dapm
      = some { MICSUPP := PIN_DISABLED, sync_passes := 8 } :=
  ⟨(arizona_micsupp_check_cp_decision sample_cfg sample_regs
      (sample_arizona WM8280 sample_device 0 0x5
        (some { MICSUPP := PIN_DISABLED, sync_passes := 0 }))
      { MICSUPP := PIN_DISABLED, sync_passes := 0 } (by decide) rfl rfl).1.trans (by decide),
   (arizona_micsupp_check_cp_decision sample_cfg sample_regs
      (sample_arizona WM8280 sample_device 0 0x3
        (some { MICSUPP := PIN_FORCED_ON, sync_passes := 7 }))
      { MICSUPP := PIN_FORCED_ON, sync_passes := 7 } (by decide) rfl rfl).1.trans (by decide)⟩

/-- Every run of the synchronizer reads the status register once and reads
no other register. -/
theorem check_cp_one_read (cfg : kconfig) (regs : arizona_registers) (a : arizona) :
    ((arizona_micsupp_check_cp cfg regs a).2.filter
        (fun c => match c with
          | call.regmap_read _ => true
          | _ => false))
      = [call.regmap_read regs.ARIZONA_MIC_CHARGE_PUMP_1] := by
  unfold arizona_micsupp_check_cp
  simp only []
  cases a.dapm with
  | none => split_ifs <;> rfl
  | some d => split_ifs <;> rfl

/-- C8: the abort paths of the synchronizer. If the read of the status
register fails, or the audio-routing graph handle is absent, the run leaves
the per-device state, and so the pin state, exactly as it was and makes no
pin call and no synchronization pass. Every run makes exactly one register
read, of the status register (no retry). The work function returns nothing:
its embedding has no result besides the state and the calls. -/
theorem arizona_micsupp_check_cp_abort (cfg : kconfig) (regs : arizona_registers)
    (a : arizona) :
    ((a.regmap.read regs.ARIZONA_MIC_CHARGE_PUMP_1).1 ≠ 0 ∨ a.dapm = none →
      (arizona_micsupp_check_cp cfg regs a).1 = a ∧
      call.snd_soc_dapm_sync ∉ (arizona_micsupp_check_cp cfg regs a).2 ∧
      (∀ pin, call.snd_soc_dapm_force_enable_pin pin ∉ (arizona_micsupp_check_cp cfg regs a).2) ∧
      (∀ pin, call.snd_soc_dapm_disable_pin pin ∉ (arizona_micsupp_check_cp cfg regs a).2)) ∧
    ((arizona_micsupp_check_cp cfg regs a).2.filter
        (fun c => match c with
          | call.regmap_read _ => true
          | _ => false))
      = [call.regmap_read regs.ARIZONA_MIC_CHARGE_PUMP_1] := by
  refine ⟨?_, check_cp_one_read cfg regs a⟩
  intro h
  unfold arizona_micsupp_check_cp
  simp only []
  by_cases hret : (a.regmap.read regs.ARIZONA_MIC_CHARGE_PUMP_1).1 ≠ 0
  · rw [if_pos hret]
    simp
  · rw [if_neg hret]
    have hd : a.dapm = none := h.resolve_left hret
    rw [hd]
    simp

/-- The synchronizer on a failing read (`-EIO`) with the pin forced on, and
on a successful read without graph handle. -/
theorem arizona_micsupp_check_cp_abort_witness :
    (arizona_micsupp_check_cp sample_cfg sample_regs
        (sample_arizona WM8280 sample_device (-5) 0x1
          (some { MICSUPP := PIN_FORCED_ON, sync_passes := 3 }))).1.dapm
      = some { MICSUPP := PIN_FORCED_ON, sync_passes := 3 } ∧
    call.snd_soc_dapm_sync ∉
      (arizona_micsupp_check_cp sample_cfg sample_regs
        (sample_arizona WM8280 sample_device 0 0x1 none)).2 :=
  ⟨congrArg arizona.dapm
      ((arizona_micsupp_check_cp_abort sample_cfg sample_regs
        (sample_arizona WM8280 sample_device (-5) 0x1
          (some { MICSUPP := PIN_FORCED_ON, sync_passes := 3 }))).1
        (Or.inl (by decide))).1,
   ((arizona_micsupp_check_cp_abort sample_cfg sample_regs
        (sample_arizona WM8280 sample_device 0 0x1 none)).1 (Or.inr rfl)).2.1⟩

/-! ## Theorems: regulator operations and detach -/

/-- A request that returns 0 leaves the work item pending. -/
theorem arizona_micsupp_ops_pending {ρ : Type} (cfg : kconfig) (fw : regulator_framework ρ)
    (micsupp : struct_arizona_micsupp ρ) (op : micsupp_op)
    (h : (run_op cfg fw micsupp op).ret = 0) :
    (run_op cfg fw micsupp op).micsupp.check_cp_work.pending = true := by
  cases op with
  | enable =>
    simp only [run_op, arizona_micsupp_enable] at h ⊢
    split_ifs at h ⊢ with h0
    · rfl
    · exact absurd h h0
  | disable =>
    simp only [run_op, arizona_micsupp_disable] at h ⊢
    split_ifs at h ⊢ with h0
    · rfl
    · exact absurd h h0
  | set_bypass ena =>
    simp only [run_op, arizona_micsupp_set_bypass] at h ⊢
    by_cases h0 : (fw.regulator_set_bypass_regmap micsupp.regulator ena).1 = 0
    · rw [if_pos h0]
      rfl
    · rw [if_neg h0] at h
      exact absurd h h0

/-- C4: each of enable, disable and set_bypass (any bypass argument) returns
what its register primitive returned and leaves the regulator as the
primitive left it. If the primitive returned success, the operation returns
success and schedules the instance's synchronizer task `check_cp_work` with
one call of `schedule_work`, whatever the state before (so also on a
repeated enable); if the primitive returned an error, the operation returns
that error, leaves the work item alone and does not call `schedule_work`. -/
theorem arizona_micsupp_ops_schedule {ρ : Type} (cfg : kconfig) (fw : regulator_framework ρ)
    (micsupp : struct_arizona_micsupp ρ) (ena : Bool) :
    ((arizona_micsupp_enable fw micsupp).ret = (fw.regulator_enable_regmap micsupp.regulator).1 ∧
      (arizona_micsupp_enable fw micsupp).micsupp.regulator = (fw.regulator_enable_regmap micsupp.regulator).2 ∧
      ((fw.regulator_enable_regmap micsupp.regulator).1 = 0 →
        (arizona_micsupp_enable fw micsupp).ret = 0 ∧
        (arizona_micsupp_enable fw micsupp).micsupp.check_cp_work.pending = true ∧
        (arizona_micsupp_enable fw micsupp).calls.count call.schedule_work = 1) ∧
      ((fw.regulator_enable_regmap micsupp.regulator).1 ≠ 0 →
        (arizona_micsupp_enable fw micsupp).micsupp.check_cp_work = micsupp.check_cp_work ∧
        call.schedule_work ∉ (arizona_micsupp_enable fw micsupp).calls)) ∧
    ((arizona_micsupp_disable fw micsupp).ret = (fw.regulator_disable_regmap micsupp.regulator).1 ∧
      (arizona_micsupp_disable fw micsupp).micsupp.regulator = (fw.regulator_disable_regmap micsupp.regulator).2 ∧
      ((fw.regulator_disable_regmap micsupp.regulator).1 = 0 →
        (arizona_micsupp_disable fw micsupp).ret = 0 ∧
        (arizona_micsupp_disable fw micsupp).micsupp.check_cp_work.pending = true ∧
        (arizona_micsupp_disable fw micsupp).calls.count call.schedule_work = 1) ∧
      ((fw.regulator_disable_regmap micsupp.regulator).1 ≠ 0 →
        (arizona_micsupp_disable fw micsupp).micsupp.check_cp_work = micsupp.check_cp_work ∧
        call.schedule_work ∉ (arizona_micsupp_disable fw micsupp).calls)) ∧
    ((arizona_micsupp_set_bypass cfg fw micsupp ena).ret = (fw.regulator_set_bypass_regmap micsupp.regulator ena).1 ∧
      (arizona_micsupp_set_bypass cfg fw micsupp ena).micsupp.regulator = (fw.regulator_set_bypass_regmap micsupp.regulator ena).2 ∧
      ((fw.regulator_set_bypass_regmap micsupp.regulator ena).1 = 0 →
        (arizona_micsupp_set_bypass cfg fw micsupp ena).ret = 0 ∧
        (arizona_micsupp_set_bypass cfg fw micsupp ena).micsupp.check_cp_work.pending = true ∧
        (arizona_micsupp_set_bypass cfg fw micsupp ena).calls.count call.schedule_work = 1) ∧
      ((fw.regulator_set_bypass_regmap micsupp.regulator ena).1 ≠ 0 →
        (arizona_micsupp_set_bypass cfg fw micsupp ena).micsupp.check_cp_work = micsupp.check_cp_work ∧
        call.schedule_work ∉ (arizona_micsupp_set_bypass cfg fw micsupp ena).calls)) := by
  refine ⟨?_, ?_, ?_⟩
  · unfold arizona_micsupp_enable
    by_cases h : (fw.regulator_enable_regmap micsupp.regulator).1 = 0
    · simp [h, schedule_work]
    · simp [h]
  · unfold arizona_micsupp_disable
    by_cases h : (fw.regulator_disable_regmap micsupp.regulator).1 = 0
    · simp [h, schedule_work]
    · simp [h]
  · unfold arizona_micsupp_set_bypass
    by_cases h : (fw.regulator_set_bypass_regmap micsupp.regulator ena).1 = 0
    · by_cases hc : (cfg.CONFIG_AUDIO_CODEC_FLORIDA || cfg.CONFIG_AUDIO_CODEC_WM8998_SWITCH) = true
      · simp [h, hc, schedule_work, List.count_cons]
      · simp [h, hc, schedule_work, List.count_cons]
    · by_cases hc : (cfg.CONFIG_AUDIO_CODEC_FLORIDA || cfg.CONFIG_AUDIO_CODEC_WM8998_SWITCH) = true
      · simp [h, hc]
      · simp [h, hc]

/-- An enable repeated on an enabled rail with the task still pending
returns 0 and calls `schedule_work` again; an enable whose primitive fails
with `-EIO` returns `-EIO` and schedules nothing. -/
theorem arizona_micsupp_ops_schedule_witness :
    ((arizona_micsupp_enable sample_fw
        (arizona_micsupp_enable sample_fw (sample_micsupp 0)).micsupp).ret = 0 ∧
      (arizona_micsupp_enable sample_fw
        (arizona_micsupp_enable sample_fw (sample_micsupp 0)).micsupp).micsupp.check_cp_work.pending
          = true ∧
      (arizona_micsupp_enable sample_fw
        (arizona_micsupp_enable sample_fw (sample_micsupp 0)).micsupp).calls.count
          call.schedule_work = 1) ∧
    ((arizona_micsupp_enable sample_fw_eio (sample_micsupp 0)).ret = -5 ∧
      call.schedule_work ∉ (arizona_micsupp_enable sample_fw_eio (sample_micsupp 0)).calls) :=
  ⟨(arizona_micsupp_ops_schedule sample_cfg sample_fw
      (arizona_micsupp_enable sample_fw (sample_micsupp 0)).micsupp true).1.2.2.1 rfl,
   (arizona_micsupp_ops_schedule sample_cfg sample_fw_eio (sample_micsupp 0) true).1.1,
   ((arizona_micsupp_ops_schedule sample_cfg sample_fw_eio (sample_micsupp 0) true).1.2.2.2
      (by decide)).2⟩

/-- C6, as the code has it: detach only unregisters the regulator and
returns 0. It neither flushes nor cancels the synchronizer task: in every
state reachable from an instance by client requests and runs of the worker,
the work item `check_cp_work` is after detach what it was before detach, and
the only collaborator call is `regulator_unregister`. So a detach that
directly follows a request whose primitive succeeded returns with the task
pending. -/
theorem arizona_micsupp_remove_keeps_work {ρ : Type} (cfg : kconfig)
    (regs : arizona_registers) (fw : regulator_framework ρ)
    (micsupp : struct_arizona_micsupp ρ) (evs : List micsupp_event) :
    (arizona_micsupp_remove fw (run_events cfg regs fw micsupp evs)).ret = 0 ∧
    (arizona_micsupp_remove fw (run_events cfg regs fw micsupp evs)).micsupp.check_cp_work
      = (run_events cfg regs fw micsupp evs).check_cp_work ∧
    (arizona_micsupp_remove fw (run_events cfg regs fw micsupp evs)).calls
      = [call.regulator_unregister] ∧
    ∀ op : micsupp_op,
      (run_op cfg fw (run_events cfg regs fw micsupp evs) op).ret = 0 →
      (arizona_micsupp_remove fw
        (run_op cfg fw (run_events cfg regs fw micsupp evs) op).micsupp).micsupp.check_cp_work.pending
        = true := by
  refine ⟨rfl, rfl, rfl, ?_⟩
  intro op hop
  have h := arizona_micsupp_ops_pending cfg fw (run_events cfg regs fw micsupp evs) op hop
  simpa [arizona_micsupp_remove] using h

/-- A detach that follows a bypass request, itself made after an enable
whose task the worker already ran, returns with the task pending. -/
theorem arizona_micsupp_remove_keeps_work_witness :
    (arizona_micsupp_remove sample_fw
      (run_op sample_cfg sample_fw
        (run_events sample_cfg sample_regs sample_fw (sample_micsupp 0)
          [micsupp_event.request micsupp_op.enable, micsupp_event.work_runs])
        (micsupp_op.set_bypass true)).micsupp).micsupp.check_cp_work.pending = true :=
  (arizona_micsupp_remove_keeps_work sample_cfg sample_regs sample_fw (sample_micsupp 0)
    [micsupp_event.request micsupp_op.enable, micsupp_event.work_runs]).2.2.2
    (micsupp_op.set_bypass true) rfl

/-- C6 fails as stated: after a successful enable on a fresh instance,
detach returns 0 having called nothing but `regulator_unregister`, and the
synchronizer task of the instance is still pending. -/
theorem arizona_micsupp_remove_leaves_pending :
    (arizona_micsupp_remove sample_fw
      (run_events sample_cfg sample_regs sample_fw (sample_micsupp 0)
        [micsupp_event.request micsupp_op.enable])).micsupp.check_cp_work.pending = true ∧
    (arizona_micsupp_remove sample_fw
      (run_events sample_cfg sample_regs sample_fw (sample_micsupp 0)
        [micsupp_event.request micsupp_op.enable])).ret = 0 ∧
    (arizona_micsupp_remove sample_fw
      (run_events sample_cfg sample_regs sample_fw (sample_micsupp 0)
        [micsupp_event.request micsupp_op.enable])).calls = [call.regulator_unregister] :=
  ⟨rfl, rfl, rfl⟩

/-! ## Theorems: configuration overrides at regulator attach -/

/-- C7, as the code has it: a probe that gets its memory reaches
`regulator_register`. It consults the hardware description node "micvdd"
(a lookup of the child of that name, and a parse of its init data when the
child exists) exactly when the build has `CONFIG_OF` and the device has no
platform data pointer; otherwise it makes no lookup, leaves the per-device
state as it was and hands over a config without node. When the node is
consulted and yields init data, that init data, bound to the instance's one
consumer supply, is stored in `arizona->pdata.micvdd` and handed to the
registration. Otherwise the init data handed over is `arizona->pdata.micvdd`
when that is set, and only otherwise the built-in default constraints of
the variant, bound to the instance's supply; the per-device state is then
unchanged. -/
theorem arizona_micsupp_probe_init_data {ρ : Type} (cfg : kconfig) (regs : arizona_registers)
    (env : micsupp_probe_env ρ) (a : arizona) (hk : env.devm_kzalloc_ok = true) :
    ∃ desc config,
      (arizona_micsupp_probe cfg regs env a).registered = some (desc, config) ∧
      config.init_data = some
        (match
            (if cfg.CONFIG_OF = true ∧ a.dev.platform_data = none then
              (of_get_child_by_name a.dev.of_node "micvdd").bind (fun np => np.init_data)
            else none) with
          | some node_init_data =>
            { node_init_data with
              consumer_supplies := some { supply := "MICVDD", dev_name := a.dev.name }
              num_consumer_supplies := 1 }
          | none =>
            match a.pdata.micvdd with
            | some micvdd => micvdd
            | none =>
              { (arizona_micsupp_probe_select regs a.type).2 with
                consumer_supplies := some { supply := "MICVDD", dev_name := a.dev.name } }) ∧
      (arizona_micsupp_probe cfg regs env a).arizona =
        (match
            (if cfg.CONFIG_OF = true ∧ a.dev.platform_data = none then
              (of_get_child_by_name a.dev.of_node "micvdd").bind (fun np => np.init_data)
            else none) with
          | some node_init_data =>
            { a with
              pdata :=
                { micvdd := some
                    { node_init_data with
                      consumer_supplies := some { supply := "MICVDD", dev_name := a.dev.name }
                      num_consumer_supplies := 1 } } }
          | none => a) ∧
      config.of_node =
        (if cfg.CONFIG_OF = true ∧ a.dev.platform_data = none then
          of_get_child_by_name a.dev.of_node "micvdd"
        else none) ∧
      config.dev = some a.dev ∧
      (∀ name, call.of_get_child_by_name name ∈ (arizona_micsupp_probe cfg regs env a).calls ↔
        (name = "micvdd" ∧ cfg.CONFIG_OF = true ∧ a.dev.platform_data = none)) ∧
      (call.of_get_regulator_init_data ∈ (arizona_micsupp_probe cfg regs env a).calls ↔
        (cfg.CONFIG_OF = true ∧ a.dev.platform_data = none ∧
          (of_get_child_by_name a.dev.of_node "micvdd").isSome = true)) := by
  unfold arizona_micsupp_probe arizona_micsupp_of_get_pdata
  simp only [hk, Bool.not_true, Bool.false_eq_true, if_false]
  cases hmv : a.pdata.micvdd <;> cases hof : cfg.CONFIG_OF <;>
    cases hpd : a.dev.platform_data <;>
    cases hch : of_get_child_by_name a.dev.of_node "micvdd" with
    | none =>
      simp only [hmv, Option.isNone, Bool.and_true, Bool.and_false, Bool.false_and,
        Bool.true_and, Bool.false_eq_true, if_false, if_true, lt_self_iff_false, false_and,
        true_and, and_false, and_self, Option.bind, reduceCtorEq]
      split <;> refine ⟨_, _, rfl, rfl, rfl, rfl, rfl, ?_, ?_⟩ <;> simp
    | some np =>
      cases hnp : np.init_data <;>
      · simp only [hmv, hnp, Option.isNone, Bool.and_true, Bool.and_false, Bool.false_and,
          Bool.true_and, Bool.false_eq_true, if_false, if_true, lt_self_iff_false, false_and,
          true_and, and_false, and_self, Option.bind, reduceCtorEq]
        split <;> refine ⟨_, _, rfl, rfl, rfl, rfl, rfl, ?_, ?_⟩ <;> simp

/-- A probe on a device without platform data whose node "micvdd" yields
init data looks the node up, stores that init data, bound to the supply, in
`arizona->pdata.micvdd` and hands it to the registration. -/
theorem arizona_micsupp_probe_init_data_witness :
    (arizona_micsupp_probe sample_cfg sample_regs sample_probe_env
        (sample_arizona WM8280 (sample_of_device none) 0 0 none)).registered.bind
        (fun r => r.2.init_data)
      = some
        { sample_node_init_data with
          consumer_supplies := some { supply := "MICVDD", dev_name := "spi0.0" }
          num_consumer_supplies := 1 } ∧
    (arizona_micsupp_probe sample_cfg sample_regs sample_probe_env
        (sample_arizona WM8280 (sample_of_device none) 0 0 none)).arizona.pdata.micvdd
      = some
        { sample_node_init_data with
          consumer_supplies := some { supply := "MICVDD", dev_name := "spi0.0" }
          num_consumer_supplies := 1 } ∧
    call.of_get_child_by_name "micvdd" ∈
      (arizona_micsupp_probe sample_cfg sample_regs sample_probe_env
        (sample_arizona WM8280 (sample_of_device none) 0 0 none)).calls := by
  obtain ⟨desc, config, hreg, hinit, harizona, -, -, hlookup, -⟩ :=
    arizona_micsupp_probe_init_data sample_cfg sample_regs sample_probe_env
      (sample_arizona WM8280 (sample_of_device none) 0 0 none) rfl
  refine ⟨?_, ?_, (hlookup "micvdd").2 ⟨rfl, rfl, rfl⟩⟩
  · rw [hreg]
    exact hinit
  · rw [harizona]
    rfl

/-- C7 fails as stated: the device has platform data without micvdd init
data (so no platform-supplied micvdd init data exists) and its node
"micvdd" yields init data, yet the probe hands the built-in default
constraints of the variant to the registration, not the node-derived init
data. -/
theorem arizona_micsupp_probe_ignores_node :
    (arizona_micsupp_probe sample_cfg sample_regs sample_probe_env
        (sample_arizona WM8280 (sample_of_device (some { micvdd := none })) 0 0
          none)).registered.bind (fun r => r.2.init_data)
      = some
        { arizona_micsupp_ext_default with
          consumer_supplies := some { supply := "MICVDD", dev_name := "spi0.0" } } ∧
    (arizona_micsupp_probe sample_cfg sample_regs sample_probe_env
        (sample_arizona WM8280 (sample_of_device (some { micvdd := none })) 0 0
          none)).registered.bind (fun r => r.2.init_data)
      ≠ some
        { sample_node_init_data with
          consumer_supplies := some { supply := "MICVDD", dev_name := "spi0.0" }
          num_consumer_supplies := 1 } ∧
    (of_get_child_by_name (sample_of_device (some { micvdd := none })).of_node "micvdd").bind
        (fun np => np.init_data) = some sample_node_init_data := by
  refine ⟨rfl, ?_, rfl⟩
  decide

/-! ## Theorems: device identification at bus attach -/

/-- The identifier table at the identifier strings "wm5102", "wm5110" and
"wm8280". -/
theorem spi_get_device_id_table (spi : spi_device) (id : spi_device_id)
    (hid : spi_get_device_id spi = some id) :
    (spi.modalias = "wm5102" → id.driver_data = WM5102) ∧
    (spi.modalias = "wm5110" → id.driver_data = WM5110) ∧
    (spi.modalias = "wm8280" → id.driver_data = WM8280) := by
  refine ⟨?_, ?_, ?_⟩ <;>
  · intro hm
    rw [spi_get_device_id, hm] at hid
    simp [arizona_spi_ids, List.find?] at hid
    rw [← hid]

/-- An attach whose resolved variant has a case in the compiled `switch` and
that gets its memory initialises the register map of that case and no
other. -/
theorem spi_probe_selects (cfg : kconfig) (env : spi_probe_env) (spi : spi_device)
    (id : spi_device_id) (type : arizona_type) (config : regmap_config)
    (hid : spi_get_device_id spi = some id)
    (htype : arizona_spi_probe_type spi (some id) = some type)
    (hsel : arizona_spi_probe_regmap cfg type = some config)
    (hk : env.devm_kzalloc_ok = true) :
    ∃ r, arizona_spi_probe cfg env spi = some r ∧
      ∀ c, call.devm_regmap_init_spi c ∈ r.calls ↔ c = config := by
  unfold arizona_spi_probe
  simp only [hid, htype, hsel, hk, Bool.not_true, Bool.false_eq_true, if_false]
  cases env.devm_regmap_init_spi config with
  | error e => exact ⟨_, rfl, by intro c; simp [eq_comm]⟩
  | ok map => exact ⟨_, rfl, by intro c; simp [eq_comm]⟩

/-- An attach whose resolved variant has no case in the compiled `switch`
returns `-EINVAL` after the error message alone. -/
theorem spi_probe_unknown (cfg : kconfig) (env : spi_probe_env) (spi : spi_device)
    (id : spi_device_id) (type : arizona_type)
    (hid : spi_get_device_id spi = some id)
    (htype : arizona_spi_probe_type spi (some id) = some type)
    (hsel : arizona_spi_probe_regmap cfg type = none) :
    arizona_spi_probe cfg env spi
      = some { ret := -EINVAL, arizona := none
               calls := [call.dev_err "Unknown device type %ld\n"] } := by
  unfold arizona_spi_probe
  simp only [hid, htype, hsel]

/-- C5, as the code has it. For an attach whose identifier string has an
entry `id` in `arizona_spi_ids` and that resolves the variant `type`:
without hardware description node the variant is the entry's, WM5102 for
"wm5102", WM5110 for "wm5110" and WM8280 for "wm8280"; in a build with
`CONFIG_MFD_WM5102` a resolved WM5102 selects the wm5102 register map, and
in a build with `CONFIG_MFD_FLORIDA` a resolved WM5110 or WM8280 selects the
florida register map (the one map initialised once memory is there); and
for every resolved variant whose case is not compiled in (WM5102 without
`CONFIG_MFD_WM5102`, WM5110 or WM8280 without `CONFIG_MFD_FLORIDA`, any
other value in any build) attach fails with `-EINVAL` before per-device
state is allocated or a register map initialised, creating no instance. -/
theorem arizona_spi_probe_identification (cfg : kconfig) (env : spi_probe_env)
    (spi : spi_device) (id : spi_device_id) (type : arizona_type)
    (hid : spi_get_device_id spi = some id)
    (htype : arizona_spi_probe_type spi (some id) = some type) :
    (spi.dev.of_node = none →
      type = id.driver_data ∧
      (spi.modalias = "wm5102" → type = WM5102) ∧
      (spi.modalias = "wm5110" → type = WM5110) ∧
      (spi.modalias = "wm8280" → type = WM8280)) ∧
    (cfg.CONFIG_MFD_WM5102 = true → type = WM5102 → env.devm_kzalloc_ok = true →
      ∃ r, arizona_spi_probe cfg env spi = some r ∧
        ∀ c, call.devm_regmap_init_spi c ∈ r.calls ↔ c = wm5102_spi_regmap) ∧
    (cfg.CONFIG_MFD_FLORIDA = true → type = WM5110 ∨ type = WM8280 →
      env.devm_kzalloc_ok = true →
      ∃ r, arizona_spi_probe cfg env spi = some r ∧
        ∀ c, call.devm_regmap_init_spi c ∈ r.calls ↔ c = florida_spi_regmap) ∧
    (¬ (cfg.CONFIG_MFD_WM5102 = true ∧ type = WM5102) →
      ¬ (cfg.CONFIG_MFD_FLORIDA = true ∧ (type = WM5110 ∨ type = WM8280)) →
      arizona_spi_probe cfg env spi
        = some { ret := -EINVAL, arizona := none
                 calls := [call.dev_err "Unknown device type %ld\n"] }) := by
  refine ⟨?_, ?_, ?_, ?_⟩
  · intro hnode
    have ht : type = id.driver_data := by
      simp only [arizona_spi_probe_type, hnode, Option.map_some', Option.some.injEq] at htype
      exact htype.symm
    obtain ⟨h1, h2, h3⟩ := spi_get_device_id_table spi id hid
    exact ⟨ht, fun h => ht.trans (h1 h), fun h => ht.trans (h2 h), fun h => ht.trans (h3 h)⟩
  · intro hcfg ht hk
    exact spi_probe_selects cfg env spi id type _ hid htype
      (by rw [ht]; simp [arizona_spi_probe_regmap, hcfg]) hk
  · intro hcfg ht hk
    exact spi_probe_selects cfg env spi id type _ hid htype
      (by rcases ht with ht | ht <;> rw [ht] <;> simp [arizona_spi_probe_regmap, hcfg]) hk
  · intro h1 h2
    apply spi_probe_unknown cfg env spi id type hid htype
    cases type with
    | WM5102 =>
      have : cfg.CONFIG_MFD_WM5102 = false := by simpa using h1
      simp [arizona_spi_probe_regmap, this]
    | WM5110 =>
      have : cfg.CONFIG_MFD_FLORIDA = false := by simpa using h2
      simp [arizona_spi_probe_regmap, this]
    | WM8280 =>
      have : cfg.CONFIG_MFD_FLORIDA = false := by simpa using h2
      simp [arizona_spi_probe_regmap, this]
    | other n => rfl

/-- In the florida build, a device without node and with the identifier
"wm8280" gets the florida register map, and a device whose node resolves a
variant that has no case fails with `-EINVAL` before anything is allocated. -/
theorem arizona_spi_probe_identification_witness :
    (∃ r, arizona_spi_probe sample_cfg sample_spi_env (sample_spi none "wm8280") = some r ∧
      ∀ c, call.devm_regmap_init_spi c ∈ r.calls ↔ c = florida_spi_regmap) ∧
    arizona_spi_probe sample_cfg sample_spi_env
        (sample_spi (some { of_type := other 3, children := [] }) "wm5110")
      = some { ret := -EINVAL, arizona := none
               calls := [call.dev_err "Unknown device type %ld\n"] } :=
  ⟨(arizona_spi_probe_identification sample_cfg sample_spi_env (sample_spi none "wm8280")
      { name := "wm8280", driver_data := WM8280 } WM8280 rfl rfl).2.2.1 rfl (Or.inr rfl) rfl,
   (arizona_spi_probe_identification sample_cfg sample_spi_env
      (sample_spi (some { of_type := other 3, children := [] }) "wm5110")
      { name := "wm5110", driver_data := WM5110 } (other 3) rfl rfl).2.2.2
      (by decide) (by decide)⟩

/-- C5 fails as stated: in a build without `CONFIG_MFD_WM5102`, the attach
of a device with the identifier "wm5102" and no hardware description node
resolves WM5102 from the table and then fails with `-EINVAL`; no register
map is selected. -/
theorem arizona_spi_probe_wm5102_not_built :
    arizona_spi_probe_type (sample_spi none "wm5102")
        (spi_get_device_id (sample_spi none "wm5102")) = some WM5102 ∧
    (arizona_spi_probe sample_cfg sample_spi_env (sample_spi none "wm5102")).map
        (fun r => (r.ret, r.calls))
      = some (-EINVAL, [call.dev_err "Unknown device type %ld\n"]) :=
  ⟨rfl, rfl⟩

/-- C9 fails on the code. A device whose node resolves WM5110 and whose
identifier string "wm8281" has the table entry WM8280 attaches successfully
and records WM8280, not the resolved WM5110, as `arizona->type`. With the
identifier string "wm5102" the attach succeeds with the florida register
map, which the resolved WM5110 selected, and records WM5102. -/
theorem arizona_spi_probe_records_table_type :
    (arizona_spi_probe_type
        (sample_spi (some { of_type := WM5110, children := [] }) "wm8281")
        (spi_get_device_id (sample_spi (some { of_type := WM5110, children := [] }) "wm8281"))
      = some WM5110 ∧
    (arizona_spi_probe sample_cfg sample_spi_env
        (sample_spi (some { of_type := WM5110, children := [] }) "wm8281")).map
        (fun r => (r.ret, r.arizona.map (fun a => (a.type, a.regmap.config))))
      = some (0, some (WM8280, florida_spi_regmap))) ∧
    (arizona_spi_probe_type
        (sample_spi (some { of_type := WM5110, children := [] }) "wm5102")
        (spi_get_device_id (sample_spi (some { of_type := WM5110, children := [] }) "wm5102"))
      = some WM5110 ∧
    (arizona_spi_probe sample_cfg sample_spi_env
        (sample_spi (some { of_type := WM5110, children := [] }) "wm5102")).map
        (fun r => (r.ret, r.arizona.map (fun a => (a.type, a.regmap.config))))
      = some (0, some (WM5102, florida_spi_regmap))) :=
  ⟨⟨rfl, rfl⟩, ⟨rfl, rfl⟩⟩

end Arizona
